import Mathlib

/-!
Verification development for the plotting script `plot_learning_curves.py`.

The script builds synthetic pandas DataFrames (MAML trajectories, SGD
per-task outcomes, weight-drift series) and renders them to image files.

Shallow embedding conventions:
* A pandas DataFrame built from an ordered dict of equal-length columns is a
  list of (column name, list of real values) pairs, in insertion order.
* `np.random.normal(loc, scale, n)` is modelled as `fun i => loc + scale * u i`
  where `u : ℕ → ℝ` is an arbitrary standard-normal realization; likewise
  `np.random.rand(n)` is an arbitrary realization `r : ℕ → ℝ` (uniform on
  [0,1)).  Universal quantification over these functions covers every noise
  realization.
* `np.exp` on reals is `Real.exp`.
* Plot renderers are modelled by the observable effects the claims speak
  about: files written, console lines printed, sub-panels drawn and text
  annotations placed.  Figure layout and pixel content are not modelled.
-/

/-- A pandas DataFrame: named columns of real values, in insertion order. -/
structure DataFrame where
  cols : List (String × List ℝ)

/-- Number of rows: the length of the first column (0 for a column-less
frame), matching `len(df)` on the rectangular frames the script builds. -/
def DataFrame.nrows (df : DataFrame) : ℕ :=
  match df.cols with
  | [] => 0
  | c :: _ => c.2.length

/-- The column names, in order (`df.columns`). -/
def DataFrame.colNames (df : DataFrame) : List String :=
  df.cols.map Prod.fst

/-- Membership test `name in df.columns`. -/
def DataFrame.hasCol (df : DataFrame) (name : String) : Bool :=
  df.cols.any (fun c => c.1 == name)

/-- Column lookup `df[name]`; `[]` when the column is absent. -/
def DataFrame.getCol (df : DataFrame) (name : String) : List ℝ :=
  match df.cols.find? (fun c => c.1 == name) with
  | some c => c.2
  | none => []

/-- pandas `df.empty`: true when the frame has no columns or no rows. -/
def DataFrame.isEmpty (df : DataFrame) : Bool :=
  df.cols.isEmpty || df.nrows == 0

/-- Embedding of `np.arange(start, stop, step)` on natural arguments (step > 0):
the values `start + i * step` for `i < ceil((stop - start) / step)`. -/
def arange (start stop step : ℕ) : List ℕ :=
  (List.range ((stop - start + step - 1) / step)).map (fun i => start + i * step)

/-- pandas `Series.clip(0, 1)` applied to one value. -/
def clip01 (x : ℝ) : ℝ :=
  min 1 (max 0 x)

/-- The array `steps = np.arange(log_interval, epochs + 1, log_interval)` from
`generate_dummy_maml_trajectory`. -/
def steps (epochs log_interval : ℕ) : List ℕ :=
  arange log_interval (epochs + 1) log_interval

/-- The `val_loss` column:
`0.7 - 0.3 * (1 - np.exp(-steps / (epochs * 0.3))) + np.random.normal(0, 0.02, len(steps))`. -/
noncomputable def maml_val_loss (epochs log_interval : ℕ) (u : ℕ → ℝ) : List ℝ :=
  (steps epochs log_interval).mapIdx
    (fun (i : ℕ) (s : ℕ) => 0.7 - 0.3 * (1 - Real.exp (-(s : ℝ) / ((epochs : ℝ) * 0.3))) + (0 + 0.02 * u i))

/-- The `val_accuracy` column before the clip:
`0.5 + 0.4 * (1 - np.exp(-steps / (epochs * 0.4))) + np.random.normal(0, 0.02, len(steps))`. -/
noncomputable def maml_val_accuracy_raw (epochs log_interval : ℕ) (u : ℕ → ℝ) : List ℝ :=
  (steps epochs log_interval).mapIdx
    (fun (i : ℕ) (s : ℕ) => 0.5 + 0.4 * (1 - Real.exp (-(s : ℝ) / ((epochs : ℝ) * 0.4))) + (0 + 0.02 * u i))

/-- The `grad_alignment` column:
`0.1 + 0.6 * (1 - np.exp(-steps / (epochs * 0.5))) + np.random.normal(0, 0.05, len(steps))`. -/
noncomputable def maml_grad_alignment (epochs log_interval : ℕ) (u : ℕ → ℝ) : List ℝ :=
  (steps epochs log_interval).mapIdx
    (fun (i : ℕ) (s : ℕ) => 0.1 + 0.6 * (1 - Real.exp (-(s : ℝ) / ((epochs : ℝ) * 0.5))) + (0 + 0.05 * u i))

/-- Embedding of `generate_dummy_maml_trajectory(epochs, log_interval)`; `uL`, `uA`, `uG`
are the standard-normal realizations behind the three `np.random.normal`
calls.  The clip `df['val_accuracy'] = df['val_accuracy'].clip(0, 1)` is
applied after the frame is built. -/
noncomputable def generate_dummy_maml_trajectory (epochs log_interval : ℕ)
    (uL uA uG : ℕ → ℝ) : DataFrame :=
  { cols := [("log_step", (steps epochs log_interval).map (fun (s : ℕ) => (s : ℝ))),
             ("val_loss", maml_val_loss epochs log_interval uL),
             ("val_accuracy", (maml_val_accuracy_raw epochs log_interval uA).map clip01),
             ("grad_alignment", maml_grad_alignment epochs log_interval uG)] }

/-- The `query_loss` column:
`0.6 - 0.2 * (1 - np.exp(-np.arange(num_tasks) / (num_tasks * 0.5))) + np.random.normal(0, 0.03, num_tasks)`. -/
noncomputable def sgd_query_loss (num_tasks : ℕ) (u : ℕ → ℝ) : List ℝ :=
  (arange 0 num_tasks 1).mapIdx
    (fun (i : ℕ) (t : ℕ) => 0.6 - 0.2 * (1 - Real.exp (-(t : ℝ) / ((num_tasks : ℝ) * 0.5))) + (0 + 0.03 * u i))

/-- The `query_accuracy` column before the clip:
`0.55 + 0.3 * (1 - np.exp(-np.arange(num_tasks) / (num_tasks * 0.6))) + np.random.normal(0, 0.03, num_tasks)`. -/
noncomputable def sgd_query_accuracy_raw (num_tasks : ℕ) (u : ℕ → ℝ) : List ℝ :=
  (arange 0 num_tasks 1).mapIdx
    (fun (i : ℕ) (t : ℕ) => 0.55 + 0.3 * (1 - Real.exp (-(t : ℝ) / ((num_tasks : ℝ) * 0.6))) + (0 + 0.03 * u i))

/-- The `final_support_loss` column: `np.random.rand(num_tasks) * 0.1`. -/
def sgd_final_support_loss (num_tasks : ℕ) (r : ℕ → ℝ) : List ℝ :=
  (List.range num_tasks).map (fun i => r i * 0.1)

/-- Embedding of `generate_dummy_sgd_trajectory(num_tasks)`; `uQL`, `uQA` are the
standard-normal realizations and `rFS` the `np.random.rand` realization.
The clip `df['query_accuracy'] = df['query_accuracy'].clip(0, 1)` is applied
after the frame is built. -/
noncomputable def generate_dummy_sgd_trajectory (num_tasks : ℕ)
    (uQL uQA rFS : ℕ → ℝ) : DataFrame :=
  { cols := [("task_idx", (arange 0 num_tasks 1).map (fun (i : ℕ) => (i : ℝ))),
             ("query_loss", sgd_query_loss num_tasks uQL),
             ("query_accuracy", (sgd_query_accuracy_raw num_tasks uQA).map clip01),
             ("final_support_loss", sgd_final_support_loss num_tasks rFS),
             ("num_sgd_steps", List.replicate num_tasks (100 : ℝ)),
             ("lr", List.replicate num_tasks (0.001 : ℝ))] }

/-- The array `epochs = np.arange(1, num_points + 1) * 100` from the `maml` branch of
`generate_dummy_drift_data`. -/
def drift_epochs (num_points : ℕ) : List ℕ :=
  (arange 1 (num_points + 1) 1).map (fun k => k * 100)

/-- The `l2_drift_from_init` column of the `maml` branch:
`final_drift_mean * (1 - np.exp(-epochs / (num_points * 100 * 0.4))) + np.random.normal(0, 0.1, num_points)`. -/
noncomputable def drift_from_init (num_points : ℕ) (final_drift_mean : ℝ) (u : ℕ → ℝ) : List ℝ :=
  (drift_epochs num_points).mapIdx
    (fun (i : ℕ) (e : ℕ) => final_drift_mean * (1 - Real.exp (-(e : ℝ) / ((num_points : ℝ) * 100 * 0.4)))
      + (0 + 0.1 * u i))

/-- The `l2_drift_from_previous` column of the `maml` branch:
`np.abs(np.random.normal(0.1, 0.05, num_points) * (final_drift_mean / epochs[-1]) * (epochs[-1] - epochs / 2) / (epochs[-1] / 2))`.
Python's `epochs[-1]` (which raises IndexError when `num_points = 0`; the
script only calls this with positive counts) is the last epoch value. -/
noncomputable def drift_from_prev (num_points : ℕ) (final_drift_mean : ℝ) (u : ℕ → ℝ) : List ℝ :=
  (drift_epochs num_points).mapIdx
    (fun (i : ℕ) (e : ℕ) => |(0.1 + 0.05 * u i) * (final_drift_mean / (((drift_epochs num_points).getLastD 0 : ℕ) : ℝ))
      * ((((drift_epochs num_points).getLastD 0 : ℕ) : ℝ) - (e : ℝ) / 2)
      / ((((drift_epochs num_points).getLastD 0 : ℕ) : ℝ) / 2)|)

/-- The `final_l2_drift_from_init` column of the `sgd` branch:
`np.abs(np.random.normal(loc=final_drift_mean * 0.8, scale=final_drift_std, size=num_points))`. -/
noncomputable def sgd_final_drifts (num_points : ℕ) (final_drift_mean final_drift_std : ℝ)
    (u : ℕ → ℝ) : List ℝ :=
  (List.range num_points).map (fun i => |final_drift_mean * 0.8 + final_drift_std * u i|)

/-- Embedding of `generate_dummy_drift_data(num_points, type, final_drift_mean, final_drift_std)`;
`uI`, `uP`, `uS` are the standard-normal realizations behind the three
`np.random.normal` calls.  An unknown `type` falls through to `pd.DataFrame()`. -/
noncomputable def generate_dummy_drift_data (num_points : ℕ) (type : String)
    (final_drift_mean final_drift_std : ℝ) (uI uP uS : ℕ → ℝ) : DataFrame :=
  if type == "maml" then
    { cols := [("epoch", (drift_epochs num_points).map (fun (e : ℕ) => (e : ℝ))),
               ("l2_drift_from_init", drift_from_init num_points final_drift_mean uI),
               ("l2_drift_from_previous", drift_from_prev num_points final_drift_mean uP)] }
  else if type == "sgd" then
    { cols := [("final_l2_drift_from_init",
                sgd_final_drifts num_points final_drift_mean final_drift_std uS)] }
  else
    { cols := [] }

/-- Python `title_suffix.replace(' ', '_')`: every space becomes an
underscore. -/
def replaceSpaces (s : String) : String :=
  String.mk (s.data.map (fun c => if c = ' ' then '_' else c))

/-- Embedding of `os.path.join(output_dir, fname)` for the shapes the script uses
(relative directory, plain file name). -/
def pathJoin (dir fname : String) : String :=
  dir ++ "/" ++ fname

/-- The observable effects of one renderer call: image files written,
console lines printed, sub-panels actually drawn, and placeholder text
annotations placed with `ax.text`. -/
structure RenderResult where
  files : List String
  messages : List String
  panels : List String
  texts : List String

/-- Embedding of `plot_maml_learning_curves(df_maml, title_suffix, output_dir)`: skip
with a console line when the frame is empty; otherwise draw the loss and
accuracy panels, the gradient-alignment panel only when its column is
present, and save one file. -/
def plot_maml_learning_curves (df_maml : DataFrame) (title_suffix output_dir : String) :
    RenderResult :=
  if df_maml.isEmpty then
    { files := [], panels := [], texts := [],
      messages := ["MAML dataframe is empty for " ++ title_suffix ++ ". Skipping plot."] }
  else
    { files := [pathJoin output_dir ("maml_learning_curves" ++ replaceSpaces title_suffix ++ ".png")],
      messages := ["Saved MAML learning curves plot to " ++ output_dir ++ "/"],
      panels := ["val_loss", "val_accuracy"]
        ++ (if df_maml.hasCol "grad_alignment" then ["grad_alignment"] else []),
      texts := [] }

/-- Embedding of `plot_sgd_performance_distribution(df_sgd, title_suffix, output_dir)`:
skip with a console line when the frame is empty; otherwise draw the two
histograms and save one file. -/
def plot_sgd_performance_distribution (df_sgd : DataFrame) (title_suffix output_dir : String) :
    RenderResult :=
  if df_sgd.isEmpty then
    { files := [], panels := [], texts := [],
      messages := ["SGD dataframe is empty for " ++ title_suffix ++ ". Skipping plot."] }
  else
    { files := [pathJoin output_dir ("sgd_performance_distribution" ++ replaceSpaces title_suffix ++ ".png")],
      messages := ["Saved SGD performance distribution plot to " ++ output_dir ++ "/"],
      panels := ["query_accuracy", "query_loss"],
      texts := [] }

/-- Embedding of `plot_gradient_alignment_maml(df_maml, title_suffix, output_dir)`: skip
with a console line when the frame is empty or lacks `grad_alignment`;
otherwise draw the single panel and save one file. -/
def plot_gradient_alignment_maml (df_maml : DataFrame) (title_suffix output_dir : String) :
    RenderResult :=
  if df_maml.isEmpty || !df_maml.hasCol "grad_alignment" then
    { files := [], panels := [], texts := [],
      messages := ["MAML dataframe for grad alignment is empty or missing column for "
        ++ title_suffix ++ ". Skipping plot."] }
  else
    { files := [pathJoin output_dir ("maml_gradient_alignment" ++ replaceSpaces title_suffix ++ ".png")],
      messages := ["Saved MAML gradient alignment plot to " ++ output_dir ++ "/"],
      panels := ["grad_alignment"],
      texts := [] }

/-- Embedding of `plot_weight_drift_comparison(df_maml_drift, df_sgd_final_drifts, title_suffix, output_dir)`:
each side independently degrades to a placeholder `ax.text` annotation when
its frame is empty or its required column is missing; exactly one file is
always saved. -/
def plot_weight_drift_comparison (df_maml_drift df_sgd_final_drifts : DataFrame)
    (title_suffix output_dir : String) : RenderResult :=
  { files := [pathJoin output_dir ("weight_drift_comparison" ++ replaceSpaces title_suffix ++ ".png")],
    messages := ["Saved weight drift comparison plot to " ++ output_dir ++ "/"],
    panels :=
      (if !df_maml_drift.isEmpty && df_maml_drift.hasCol "l2_drift_from_init" then
        ["l2_drift_from_init"]
          ++ (if df_maml_drift.hasCol "l2_drift_from_previous" then ["l2_drift_from_previous"]
              else [])
      else [])
      ++ (if !df_sgd_final_drifts.isEmpty && df_sgd_final_drifts.hasCol "final_l2_drift_from_init"
          then ["final_l2_drift_from_init"] else []),
    texts :=
      (if !df_maml_drift.isEmpty && df_maml_drift.hasCol "l2_drift_from_init" then []
       else ["MAML drift data missing or incomplete"])
      ++ (if !df_sgd_final_drifts.isEmpty && df_sgd_final_drifts.hasCol "final_l2_drift_from_init"
          then [] else ["SGD drift data missing or incomplete"]) }

/-- The trend shape claimed by the spec, written from the spec's words for
comparison with the source formulas: target - (target - start) *
exp(-x / (x_max * decay_fraction)). -/
noncomputable def specTrend (start target decay_fraction x x_max : ℝ) : ℝ :=
  target - (target - start) * Real.exp (-x / (x_max * decay_fraction))

/-! ## Helper lemmas -/

theorem arange_zero_one (n : ℕ) : arange 0 n 1 = List.range n := by
  simp [arange]

theorem steps_length (e li : ℕ) (h : 1 ≤ li) : (steps e li).length = e / li := by
  simp only [steps, arange, List.length_map, List.length_range]
  rcases le_or_lt li (e + 1) with hle | hlt
  · have h1 : e + 1 - li + li - 1 = e := by omega
    rw [h1]
  · have h1 : e + 1 - li = 0 := by omega
    rw [h1, Nat.div_eq_of_lt (by omega : 0 + li - 1 < li), Nat.div_eq_of_lt (by omega : e < li)]

theorem drift_epochs_length (N : ℕ) : (drift_epochs N).length = N := by
  simp only [drift_epochs, arange, List.length_map, List.length_range]
  omega

theorem log_step_col_getD (e li i : ℕ) (h : i < (steps e li).length) :
    ((steps e li).map (fun (s : ℕ) => (s : ℝ))).getD i 0 = (((i + 1) * li : ℕ) : ℝ) := by
  simp only [steps, arange, List.length_map, List.length_range] at h
  simp only [steps, arange, List.getD, List.map_map]
  rw [List.get?_map, List.get?_range h]
  simp only [Option.map_some', Option.getD_some, Function.comp_apply]
  push_cast
  ring

theorem epoch_col_getD (N i : ℕ) (h : i < N) :
    ((drift_epochs N).map (fun (e : ℕ) => (e : ℝ))).getD i 0 = ((100 * (i + 1) : ℕ) : ℝ) := by
  have h' : i < (N + 1 - 1 + 1 - 1) / 1 := by omega
  simp only [drift_epochs, arange, List.getD, List.map_map]
  rw [List.get?_map, List.get?_range h']
  simp only [Option.map_some', Option.getD_some, Function.comp_apply]
  push_cast
  ring

theorem clip01_nonneg (x : ℝ) : 0 ≤ clip01 x :=
  le_min zero_le_one (le_max_left 0 x)

theorem clip01_le_one (x : ℝ) : clip01 x ≤ 1 :=
  min_le_left 1 _

theorem clip01_eq_one (v : ℝ) (h : 1 ≤ v) : clip01 v = 1 := by
  rw [clip01, max_eq_right (by linarith : (0 : ℝ) ≤ v), min_eq_left h]

theorem mapIdx_one (f : ℕ → ℕ → ℝ) (a : ℕ) : List.mapIdx f [a] = [f 0 a] := rfl

theorem maml_getCol_log_step (e li : ℕ) (uL uA uG : ℕ → ℝ) :
    (generate_dummy_maml_trajectory e li uL uA uG).getCol "log_step"
      = (steps e li).map (fun (s : ℕ) => (s : ℝ)) := rfl

theorem maml_getCol_val_accuracy (e li : ℕ) (uL uA uG : ℕ → ℝ) :
    (generate_dummy_maml_trajectory e li uL uA uG).getCol "val_accuracy"
      = (maml_val_accuracy_raw e li uA).map clip01 := rfl

theorem maml_getCol_val_loss (e li : ℕ) (uL uA uG : ℕ → ℝ) :
    (generate_dummy_maml_trajectory e li uL uA uG).getCol "val_loss"
      = maml_val_loss e li uL := rfl

theorem maml_getCol_grad_alignment (e li : ℕ) (uL uA uG : ℕ → ℝ) :
    (generate_dummy_maml_trajectory e li uL uA uG).getCol "grad_alignment"
      = maml_grad_alignment e li uG := rfl

theorem sgd_getCol_task_idx (N : ℕ) (uQL uQA rFS : ℕ → ℝ) :
    (generate_dummy_sgd_trajectory N uQL uQA rFS).getCol "task_idx"
      = (arange 0 N 1).map (fun (i : ℕ) => (i : ℝ)) := rfl

theorem sgd_getCol_query_accuracy (N : ℕ) (uQL uQA rFS : ℕ → ℝ) :
    (generate_dummy_sgd_trajectory N uQL uQA rFS).getCol "query_accuracy"
      = (sgd_query_accuracy_raw N uQA).map clip01 := rfl

theorem sgd_getCol_query_loss (N : ℕ) (uQL uQA rFS : ℕ → ℝ) :
    (generate_dummy_sgd_trajectory N uQL uQA rFS).getCol "query_loss"
      = sgd_query_loss N uQL := rfl

theorem sgd_getCol_num_sgd_steps (N : ℕ) (uQL uQA rFS : ℕ → ℝ) :
    (generate_dummy_sgd_trajectory N uQL uQA rFS).getCol "num_sgd_steps"
      = List.replicate N (100 : ℝ) := rfl

theorem sgd_getCol_lr (N : ℕ) (uQL uQA rFS : ℕ → ℝ) :
    (generate_dummy_sgd_trajectory N uQL uQA rFS).getCol "lr"
      = List.replicate N (0.001 : ℝ) := rfl

theorem driftM_getCol_epoch (N : ℕ) (m sd : ℝ) (uI uP uS : ℕ → ℝ) :
    (generate_dummy_drift_data N "maml" m sd uI uP uS).getCol "epoch"
      = (drift_epochs N).map (fun (e : ℕ) => (e : ℝ)) := rfl

theorem driftM_getCol_init (N : ℕ) (m sd : ℝ) (uI uP uS : ℕ → ℝ) :
    (generate_dummy_drift_data N "maml" m sd uI uP uS).getCol "l2_drift_from_init"
      = drift_from_init N m uI := rfl

theorem driftM_getCol_prev (N : ℕ) (m sd : ℝ) (uI uP uS : ℕ → ℝ) :
    (generate_dummy_drift_data N "maml" m sd uI uP uS).getCol "l2_drift_from_previous"
      = drift_from_prev N m uP := rfl

theorem driftS_getCol (N : ℕ) (m sd : ℝ) (uI uP uS : ℕ → ℝ) :
    (generate_dummy_drift_data N "sgd" m sd uI uP uS).getCol "final_l2_drift_from_init"
      = sgd_final_drifts N m sd uS := rfl

/-! ## Claim theorems -/

/-- C1: for every num_tasks N ≥ 1, `generate_dummy_sgd_trajectory(num_tasks=N)`
returns a table with exactly the columns task_idx, query_loss, query_accuracy,
final_support_loss, num_sgd_steps, lr; exactly N rows (every column has N
entries); task_idx equal to the contiguous sequence 0..N-1, hence unique;
num_sgd_steps constant 100 and lr constant 0.001 in every row. -/
theorem claim_sgd_schema (N : ℕ) (hN : 1 ≤ N) (uQL uQA rFS : ℕ → ℝ) :
    (generate_dummy_sgd_trajectory N uQL uQA rFS).colNames
      = ["task_idx", "query_loss", "query_accuracy", "final_support_loss",
         "num_sgd_steps", "lr"] ∧
    (generate_dummy_sgd_trajectory N uQL uQA rFS).nrows = N ∧
    (∀ c ∈ (generate_dummy_sgd_trajectory N uQL uQA rFS).cols, c.2.length = N) ∧
    (generate_dummy_sgd_trajectory N uQL uQA rFS).getCol "task_idx"
      = (List.range N).map (fun (i : ℕ) => (i : ℝ)) ∧
    ((generate_dummy_sgd_trajectory N uQL uQA rFS).getCol "task_idx").Nodup ∧
    (generate_dummy_sgd_trajectory N uQL uQA rFS).getCol "num_sgd_steps"
      = List.replicate N (100 : ℝ) ∧
    (generate_dummy_sgd_trajectory N uQL uQA rFS).getCol "lr"
      = List.replicate N (0.001 : ℝ) := by
  refine ⟨rfl, ?_, ?_, ?_, ?_, sgd_getCol_num_sgd_steps N uQL uQA rFS, sgd_getCol_lr N uQL uQA rFS⟩
  · show ((arange 0 N 1).map (fun (i : ℕ) => (i : ℝ))).length = N
    simp [arange_zero_one]
  · intro c hc
    simp only [generate_dummy_sgd_trajectory, List.mem_cons, List.not_mem_nil, or_false] at hc
    rcases hc with h | h | h | h | h | h <;> subst h <;>
      simp [arange_zero_one, sgd_query_loss, sgd_query_accuracy_raw, sgd_final_support_loss,
        List.length_mapIdx, arange, Nat.div_one]
  · rw [sgd_getCol_task_idx, arange_zero_one]
  · rw [sgd_getCol_task_idx, arange_zero_one]
    exact (List.nodup_range N).map Nat.cast_injective

/-- C1 witness: the schema holds at the concrete call with N = 50 and the
zero noise realization. -/
theorem claim_sgd_schema_witness :
    (1 ≤ 50) ∧
    ((generate_dummy_sgd_trajectory 50 (fun _ => 0) (fun _ => 0) (fun _ => 0)).colNames
      = ["task_idx", "query_loss", "query_accuracy", "final_support_loss",
         "num_sgd_steps", "lr"] ∧
    (generate_dummy_sgd_trajectory 50 (fun _ => 0) (fun _ => 0) (fun _ => 0)).nrows = 50 ∧
    (∀ c ∈ (generate_dummy_sgd_trajectory 50 (fun _ => 0) (fun _ => 0) (fun _ => 0)).cols,
      c.2.length = 50) ∧
    (generate_dummy_sgd_trajectory 50 (fun _ => 0) (fun _ => 0) (fun _ => 0)).getCol "task_idx"
      = (List.range 50).map (fun (i : ℕ) => (i : ℝ)) ∧
    ((generate_dummy_sgd_trajectory 50 (fun _ => 0) (fun _ => 0) (fun _ => 0)).getCol
      "task_idx").Nodup ∧
    (generate_dummy_sgd_trajectory 50 (fun _ => 0) (fun _ => 0) (fun _ => 0)).getCol
      "num_sgd_steps" = List.replicate 50 (100 : ℝ) ∧
    (generate_dummy_sgd_trajectory 50 (fun _ => 0) (fun _ => 0) (fun _ => 0)).getCol "lr"
      = List.replicate 50 (0.001 : ℝ)) :=
  ⟨by norm_num, claim_sgd_schema 50 (by norm_num) (fun _ => 0) (fun _ => 0) (fun _ => 0)⟩

/-- C10: for every type argument other than maml and sgd and any num_points,
`generate_dummy_drift_data` returns the empty frame `pd.DataFrame()`: zero
rows and zero columns. -/
theorem claim_unknown_type (N : ℕ) (ty : String) (m sd : ℝ) (uI uP uS : ℕ → ℝ)
    (h1 : ty ≠ "maml") (h2 : ty ≠ "sgd") :
    generate_dummy_drift_data N ty m sd uI uP uS = ⟨[]⟩ ∧
    (generate_dummy_drift_data N ty m sd uI uP uS).nrows = 0 ∧
    (generate_dummy_drift_data N ty m sd uI uP uS).colNames = [] := by
  have hd : generate_dummy_drift_data N ty m sd uI uP uS = ⟨[]⟩ := by
    rw [generate_dummy_drift_data, if_neg (by simpa using h1), if_neg (by simpa using h2)]
  exact ⟨hd, by rw [hd]; rfl, by rw [hd]; rfl⟩

/-- C10 witness: the unknown type "foo" with num_points 7 gives the empty
frame. -/
theorem claim_unknown_type_witness :
    ("foo" ≠ "maml") ∧ ("foo" ≠ "sgd") ∧
    (generate_dummy_drift_data 7 "foo" 5 1 (fun _ => 0) (fun _ => 0) (fun _ => 0) = ⟨[]⟩ ∧
    (generate_dummy_drift_data 7 "foo" 5 1 (fun _ => 0) (fun _ => 0) (fun _ => 0)).nrows = 0 ∧
    (generate_dummy_drift_data 7 "foo" 5 1 (fun _ => 0) (fun _ => 0) (fun _ => 0)).colNames
      = []) :=
  ⟨by decide, by decide,
    claim_unknown_type 7 "foo" 5 1 (fun _ => 0) (fun _ => 0) (fun _ => 0) (by decide) (by decide)⟩

/-- C5: for positive count parameters every generator returns exactly the
specified number of rows with all declared columns present:
`generate_dummy_maml_trajectory(epochs, log_interval)` has epochs/log_interval
rows (integer division), `generate_dummy_sgd_trajectory(N)` has N rows, and
`generate_dummy_drift_data(num_points=N)` has N rows for types maml and sgd. -/
theorem claim_row_counts (e li N : ℕ) (hE : 1 ≤ e) (hL : 1 ≤ li) (hN : 1 ≤ N)
    (uL uA uG uQL uQA rFS uI uP uS : ℕ → ℝ) (m sd : ℝ) :
    (generate_dummy_maml_trajectory e li uL uA uG).nrows = e / li ∧
    (∀ c ∈ (generate_dummy_maml_trajectory e li uL uA uG).cols, c.2.length = e / li) ∧
    (generate_dummy_maml_trajectory e li uL uA uG).colNames
      = ["log_step", "val_loss", "val_accuracy", "grad_alignment"] ∧
    (generate_dummy_sgd_trajectory N uQL uQA rFS).nrows = N ∧
    (∀ c ∈ (generate_dummy_sgd_trajectory N uQL uQA rFS).cols, c.2.length = N) ∧
    (generate_dummy_drift_data N "maml" m sd uI uP uS).nrows = N ∧
    (∀ c ∈ (generate_dummy_drift_data N "maml" m sd uI uP uS).cols, c.2.length = N) ∧
    (generate_dummy_drift_data N "maml" m sd uI uP uS).colNames
      = ["epoch", "l2_drift_from_init", "l2_drift_from_previous"] ∧
    (generate_dummy_drift_data N "sgd" m sd uI uP uS).nrows = N ∧
    (∀ c ∈ (generate_dummy_drift_data N "sgd" m sd uI uP uS).cols, c.2.length = N) ∧
    (generate_dummy_drift_data N "sgd" m sd uI uP uS).colNames
      = ["final_l2_drift_from_init"] := by
  refine ⟨?_, ?_, rfl, ?_, ?_, ?_, ?_, rfl, ?_, ?_, rfl⟩
  · show ((steps e li).map (fun (s : ℕ) => (s : ℝ))).length = e / li
    simp [steps_length e li hL]
  · intro c hc
    simp only [generate_dummy_maml_trajectory, List.mem_cons, List.not_mem_nil, or_false] at hc
    rcases hc with h | h | h | h <;> subst h <;>
      simp [maml_val_loss, maml_val_accuracy_raw, maml_grad_alignment, List.length_mapIdx,
        steps_length e li hL]
  · show ((arange 0 N 1).map (fun (i : ℕ) => (i : ℝ))).length = N
    simp [arange_zero_one]
  · intro c hc
    simp only [generate_dummy_sgd_trajectory, List.mem_cons, List.not_mem_nil, or_false] at hc
    rcases hc with h | h | h | h | h | h <;> subst h <;>
      simp [arange_zero_one, sgd_query_loss, sgd_query_accuracy_raw, sgd_final_support_loss,
        List.length_mapIdx, arange, Nat.div_one]
  · show ((drift_epochs N).map (fun (ep : ℕ) => (ep : ℝ))).length = N
    simp [drift_epochs_length]
  · intro c hc
    simp only [generate_dummy_drift_data, show ("maml" == "maml") = true from rfl, if_true,
      List.mem_cons, List.not_mem_nil, or_false] at hc
    rcases hc with h | h | h <;> subst h <;>
      simp [drift_from_init, drift_from_prev, List.length_mapIdx, drift_epochs_length]
  · show (sgd_final_drifts N m sd uS).length = N
    simp [sgd_final_drifts]
  · intro c hc
    simp only [generate_dummy_drift_data, List.mem_cons, List.not_mem_nil, or_false,
      show ("sgd" == "maml") = false from rfl, show ("sgd" == "sgd") = true from rfl,
      if_false, if_true, Bool.false_eq_true] at hc
    subst hc
    simp [sgd_final_drifts]

/-- C5 witness: the row counts hold at epochs = 100, log_interval = 10 and
N = 10 with the zero noise realization. -/
theorem claim_row_counts_witness :
    (1 ≤ 100) ∧ (1 ≤ 10) ∧
    ((generate_dummy_maml_trajectory 100 10 (fun _ => 0) (fun _ => 0) (fun _ => 0)).nrows
        = 100 / 10 ∧
    (∀ c ∈ (generate_dummy_maml_trajectory 100 10 (fun _ => 0) (fun _ => 0) (fun _ => 0)).cols,
      c.2.length = 100 / 10) ∧
    (generate_dummy_maml_trajectory 100 10 (fun _ => 0) (fun _ => 0) (fun _ => 0)).colNames
      = ["log_step", "val_loss", "val_accuracy", "grad_alignment"] ∧
    (generate_dummy_sgd_trajectory 10 (fun _ => 0) (fun _ => 0) (fun _ => 0)).nrows = 10 ∧
    (∀ c ∈ (generate_dummy_sgd_trajectory 10 (fun _ => 0) (fun _ => 0) (fun _ => 0)).cols,
      c.2.length = 10) ∧
    (generate_dummy_drift_data 10 "maml" 5 1 (fun _ => 0) (fun _ => 0) (fun _ => 0)).nrows
        = 10 ∧
    (∀ c ∈ (generate_dummy_drift_data 10 "maml" 5 1 (fun _ => 0) (fun _ => 0) (fun _ => 0)).cols,
      c.2.length = 10) ∧
    (generate_dummy_drift_data 10 "maml" 5 1 (fun _ => 0) (fun _ => 0) (fun _ => 0)).colNames
      = ["epoch", "l2_drift_from_init", "l2_drift_from_previous"] ∧
    (generate_dummy_drift_data 10 "sgd" 5 1 (fun _ => 0) (fun _ => 0) (fun _ => 0)).nrows
        = 10 ∧
    (∀ c ∈ (generate_dummy_drift_data 10 "sgd" 5 1 (fun _ => 0) (fun _ => 0) (fun _ => 0)).cols,
      c.2.length = 10) ∧
    (generate_dummy_drift_data 10 "sgd" 5 1 (fun _ => 0) (fun _ => 0) (fun _ => 0)).colNames
      = ["final_l2_drift_from_init"]) :=
  ⟨by norm_num, by norm_num,
    claim_row_counts 100 10 10 (by norm_num) (by norm_num) (by norm_num)
      (fun _ => 0) (fun _ => 0) (fun _ => 0) (fun _ => 0) (fun _ => 0) (fun _ => 0)
      (fun _ => 0) (fun _ => 0) (fun _ => 0) 5 1⟩

/-- C4: for epochs ≥ 1 and log_interval ≥ 1 the log_step column of the MAML
trajectory is the sequence log_interval, 2·log_interval, ...: its i-th entry
is (i+1)·log_interval, it starts at log_interval, and it is strictly
increasing with constant step log_interval; for num_points ≥ 1 the epoch
column of the maml drift data has i-th entry 100·(i+1), strictly increasing
with constant step 100. -/
theorem claim_step_sequences (e li N : ℕ) (hE : 1 ≤ e) (hL : 1 ≤ li) (hN : 1 ≤ N)
    (uL uA uG uI uP uS : ℕ → ℝ) (m sd : ℝ) :
    (∀ i, i < ((generate_dummy_maml_trajectory e li uL uA uG).getCol "log_step").length →
      ((generate_dummy_maml_trajectory e li uL uA uG).getCol "log_step").getD i 0
        = (((i + 1) * li : ℕ) : ℝ)) ∧
    (0 < ((generate_dummy_maml_trajectory e li uL uA uG).getCol "log_step").length →
      ((generate_dummy_maml_trajectory e li uL uA uG).getCol "log_step").getD 0 0 = (li : ℝ)) ∧
    (∀ i, i + 1 < ((generate_dummy_maml_trajectory e li uL uA uG).getCol "log_step").length →
      ((generate_dummy_maml_trajectory e li uL uA uG).getCol "log_step").getD i 0
          < ((generate_dummy_maml_trajectory e li uL uA uG).getCol "log_step").getD (i + 1) 0 ∧
      ((generate_dummy_maml_trajectory e li uL uA uG).getCol "log_step").getD (i + 1) 0
          = ((generate_dummy_maml_trajectory e li uL uA uG).getCol "log_step").getD i 0
            + (li : ℝ)) ∧
    ((generate_dummy_drift_data N "maml" m sd uI uP uS).getCol "epoch").length = N ∧
    (∀ i, i < N →
      ((generate_dummy_drift_data N "maml" m sd uI uP uS).getCol "epoch").getD i 0
        = ((100 * (i + 1) : ℕ) : ℝ)) ∧
    (∀ i, i + 1 < N →
      ((generate_dummy_drift_data N "maml" m sd uI uP uS).getCol "epoch").getD i 0
          < ((generate_dummy_drift_data N "maml" m sd uI uP uS).getCol "epoch").getD (i + 1) 0 ∧
      ((generate_dummy_drift_data N "maml" m sd uI uP uS).getCol "epoch").getD (i + 1) 0
          = ((generate_dummy_drift_data N "maml" m sd uI uP uS).getCol "epoch").getD i 0
            + 100) := by
  rw [maml_getCol_log_step, driftM_getCol_epoch]
  have hlen : ((steps e li).map (fun (s : ℕ) => (s : ℝ))).length = (steps e li).length :=
    List.length_map _ _
  refine ⟨?_, ?_, ?_, ?_, ?_, ?_⟩
  · intro i hi
    exact log_step_col_getD e li i (hlen ▸ hi)
  · intro h0
    have := log_step_col_getD e li 0 (hlen ▸ h0)
    simpa using this
  · intro i hi
    rw [log_step_col_getD e li i (by omega : i < (steps e li).length),
      log_step_col_getD e li (i + 1) (hlen ▸ hi)]
    constructor
    · exact_mod_cast (Nat.mul_lt_mul_right (by omega : 0 < li)).mpr (by omega)
    · push_cast
      ring
  · simp [drift_epochs_length]
  · intro i hi
    exact epoch_col_getD N i hi
  · intro i hi
    rw [epoch_col_getD N i (by omega), epoch_col_getD N (i + 1) (by omega)]
    constructor
    · exact_mod_cast (Nat.mul_lt_mul_left (by omega : 0 < 100)).mpr (by omega)
    · push_cast
      ring

/-- C4 witness: the sequence properties hold at epochs = 30, log_interval =
10, num_points = 3 with the zero noise realization. -/
theorem claim_step_sequences_witness :
    (1 ≤ 30) ∧ (1 ≤ 10) ∧ (1 ≤ 3) ∧
    ((∀ i, i < ((generate_dummy_maml_trajectory 30 10 (fun _ => 0) (fun _ => 0)
        (fun _ => 0)).getCol "log_step").length →
      ((generate_dummy_maml_trajectory 30 10 (fun _ => 0) (fun _ => 0)
        (fun _ => 0)).getCol "log_step").getD i 0 = (((i + 1) * 10 : ℕ) : ℝ)) ∧
    (0 < ((generate_dummy_maml_trajectory 30 10 (fun _ => 0) (fun _ => 0)
        (fun _ => 0)).getCol "log_step").length →
      ((generate_dummy_maml_trajectory 30 10 (fun _ => 0) (fun _ => 0)
        (fun _ => 0)).getCol "log_step").getD 0 0 = ((10 : ℕ) : ℝ)) ∧
    (∀ i, i + 1 < ((generate_dummy_maml_trajectory 30 10 (fun _ => 0) (fun _ => 0)
        (fun _ => 0)).getCol "log_step").length →
      ((generate_dummy_maml_trajectory 30 10 (fun _ => 0) (fun _ => 0)
          (fun _ => 0)).getCol "log_step").getD i 0
        < ((generate_dummy_maml_trajectory 30 10 (fun _ => 0) (fun _ => 0)
          (fun _ => 0)).getCol "log_step").getD (i + 1) 0 ∧
      ((generate_dummy_maml_trajectory 30 10 (fun _ => 0) (fun _ => 0)
          (fun _ => 0)).getCol "log_step").getD (i + 1) 0
        = ((generate_dummy_maml_trajectory 30 10 (fun _ => 0) (fun _ => 0)
          (fun _ => 0)).getCol "log_step").getD i 0 + ((10 : ℕ) : ℝ)) ∧
    ((generate_dummy_drift_data 3 "maml" 5 1 (fun _ => 0) (fun _ => 0)
        (fun _ => 0)).getCol "epoch").length = 3 ∧
    (∀ i, i < 3 →
      ((generate_dummy_drift_data 3 "maml" 5 1 (fun _ => 0) (fun _ => 0)
        (fun _ => 0)).getCol "epoch").getD i 0 = ((100 * (i + 1) : ℕ) : ℝ)) ∧
    (∀ i, i + 1 < 3 →
      ((generate_dummy_drift_data 3 "maml" 5 1 (fun _ => 0) (fun _ => 0)
          (fun _ => 0)).getCol "epoch").getD i 0
        < ((generate_dummy_drift_data 3 "maml" 5 1 (fun _ => 0) (fun _ => 0)
          (fun _ => 0)).getCol "epoch").getD (i + 1) 0 ∧
      ((generate_dummy_drift_data 3 "maml" 5 1 (fun _ => 0) (fun _ => 0)
          (fun _ => 0)).getCol "epoch").getD (i + 1) 0
        = ((generate_dummy_drift_data 3 "maml" 5 1 (fun _ => 0) (fun _ => 0)
          (fun _ => 0)).getCol "epoch").getD i 0 + 100)) :=
  ⟨by norm_num, by norm_num, by norm_num,
    claim_step_sequences 30 10 3 (by norm_num) (by norm_num) (by norm_num)
      (fun _ => 0) (fun _ => 0) (fun _ => 0) (fun _ => 0) (fun _ => 0) (fun _ => 0) 5 1⟩

/-- C2: for every generator call and noise realization, every value of
val_accuracy (MAML) and query_accuracy (SGD) lies in the interval from 0 to
1, because the clip is applied after the noise; the unclipped columns are
genuinely unbounded: every real value is attained by grad_alignment,
val_loss and query_loss under some noise realization. -/
theorem claim_accuracy_clipping :
    (∀ (e li : ℕ) (uL uA uG : ℕ → ℝ),
      ∀ x ∈ (generate_dummy_maml_trajectory e li uL uA uG).getCol "val_accuracy",
        0 ≤ x ∧ x ≤ 1) ∧
    (∀ (N : ℕ) (uQL uQA rFS : ℕ → ℝ),
      ∀ x ∈ (generate_dummy_sgd_trajectory N uQL uQA rFS).getCol "query_accuracy",
        0 ≤ x ∧ x ≤ 1) ∧
    (∀ v : ℝ, ∃ uG : ℕ → ℝ,
      v ∈ (generate_dummy_maml_trajectory 10 10 (fun _ => 0) (fun _ => 0) uG).getCol
        "grad_alignment") ∧
    (∀ v : ℝ, ∃ uL : ℕ → ℝ,
      v ∈ (generate_dummy_maml_trajectory 10 10 uL (fun _ => 0) (fun _ => 0)).getCol
        "val_loss") ∧
    (∀ v : ℝ, ∃ uQL : ℕ → ℝ,
      v ∈ (generate_dummy_sgd_trajectory 1 uQL (fun _ => 0) (fun _ => 0)).getCol
        "query_loss") := by
  refine ⟨?_, ?_, ?_, ?_, ?_⟩
  · intro e li uL uA uG x hx
    rw [maml_getCol_val_accuracy] at hx
    obtain ⟨y, _, rfl⟩ := List.mem_map.1 hx
    exact ⟨clip01_nonneg y, clip01_le_one y⟩
  · intro N uQL uQA rFS x hx
    rw [sgd_getCol_query_accuracy] at hx
    obtain ⟨y, _, rfl⟩ := List.mem_map.1 hx
    exact ⟨clip01_nonneg y, clip01_le_one y⟩
  · intro v
    refine ⟨fun _ => (v - (0.1 + 0.6 * (1 - Real.exp (-((10:ℕ):ℝ) / (((10:ℕ):ℝ) * 0.5)))))
      / 0.05, ?_⟩
    rw [maml_getCol_grad_alignment]
    have hcol : maml_grad_alignment 10 10
        (fun _ => (v - (0.1 + 0.6 * (1 - Real.exp (-((10:ℕ):ℝ) / (((10:ℕ):ℝ) * 0.5)))))
          / 0.05) = [v] := by
      rw [maml_grad_alignment, show steps 10 10 = [10] from by decide, mapIdx_one]
      norm_num
      field_simp
    rw [hcol]
    exact List.mem_singleton_self v
  · intro v
    refine ⟨fun _ => (v - (0.7 - 0.3 * (1 - Real.exp (-((10:ℕ):ℝ) / (((10:ℕ):ℝ) * 0.3)))))
      / 0.02, ?_⟩
    rw [maml_getCol_val_loss]
    have hcol : maml_val_loss 10 10
        (fun _ => (v - (0.7 - 0.3 * (1 - Real.exp (-((10:ℕ):ℝ) / (((10:ℕ):ℝ) * 0.3)))))
          / 0.02) = [v] := by
      rw [maml_val_loss, show steps 10 10 = [10] from by decide, mapIdx_one]
      norm_num
      field_simp
    rw [hcol]
    exact List.mem_singleton_self v
  · intro v
    refine ⟨fun _ => (v - (0.6 - 0.2 * (1 - Real.exp (-((0:ℕ):ℝ) / (((1:ℕ):ℝ) * 0.5)))))
      / 0.03, ?_⟩
    rw [sgd_getCol_query_loss]
    have hcol : sgd_query_loss 1
        (fun _ => (v - (0.6 - 0.2 * (1 - Real.exp (-((0:ℕ):ℝ) / (((1:ℕ):ℝ) * 0.5)))))
          / 0.03) = [v] := by
      rw [sgd_query_loss, show arange 0 1 1 = [0] from by decide, mapIdx_one]
      norm_num
      field_simp
      ring
    rw [hcol]
    exact List.mem_singleton_self v

/-- C2 witness: the single val_accuracy entry of the call with epochs = 10,
log_interval = 10 and zero noise lies in the unit interval. -/
theorem claim_accuracy_clipping_witness :
    0 ≤ clip01 (0.5 + 0.4 * (1 - Real.exp (-((10:ℕ):ℝ) / (((10:ℕ):ℝ) * 0.4))) + (0 + 0.02 * 0))
    ∧ clip01 (0.5 + 0.4 * (1 - Real.exp (-((10:ℕ):ℝ) / (((10:ℕ):ℝ) * 0.4))) + (0 + 0.02 * 0))
      ≤ 1 :=
  claim_accuracy_clipping.1 10 10 (fun _ => 0) (fun _ => 0) (fun _ => 0) _
    (by
      rw [maml_getCol_val_accuracy, maml_val_accuracy_raw,
        show steps 10 10 = [10] from by decide, mapIdx_one]
      exact List.mem_singleton_self _)

/-- C3: every value of l2_drift_from_previous (maml drift) and of
final_l2_drift_from_init (sgd drift) is non-negative under every call and
noise realization, because both are produced through np.abs; the concrete
call with num_points 10, type sgd, mean 8, std 2 yields the single column
final_l2_drift_from_init with 10 non-negative rows; and l2_drift_from_init
in the maml output is not forced non-negative: some noise realization makes
it negative. -/
theorem claim_drift_nonneg :
    (∀ (N : ℕ) (m sd : ℝ) (uI uP uS : ℕ → ℝ),
      ∀ x ∈ (generate_dummy_drift_data N "maml" m sd uI uP uS).getCol
        "l2_drift_from_previous", 0 ≤ x) ∧
    (∀ (N : ℕ) (m sd : ℝ) (uI uP uS : ℕ → ℝ),
      ∀ x ∈ (generate_dummy_drift_data N "sgd" m sd uI uP uS).getCol
        "final_l2_drift_from_init", 0 ≤ x) ∧
    (∀ uI uP uS : ℕ → ℝ,
      (generate_dummy_drift_data 10 "sgd" 8 2 uI uP uS).colNames
        = ["final_l2_drift_from_init"] ∧
      (generate_dummy_drift_data 10 "sgd" 8 2 uI uP uS).nrows = 10 ∧
      ∀ x ∈ (generate_dummy_drift_data 10 "sgd" 8 2 uI uP uS).getCol
        "final_l2_drift_from_init", 0 ≤ x) ∧
    (∃ uI uP uS : ℕ → ℝ, ∃ x ∈ (generate_dummy_drift_data 1 "maml" 5 1 uI uP uS).getCol
      "l2_drift_from_init", x < 0) := by
  have habs : ∀ (N : ℕ) (m sd : ℝ) (uS : ℕ → ℝ), ∀ x ∈ sgd_final_drifts N m sd uS, 0 ≤ x := by
    intro N m sd uS x hx
    obtain ⟨i, _, rfl⟩ := List.mem_map.1 hx
    exact abs_nonneg _
  refine ⟨?_, ?_, ?_, ?_⟩
  · intro N m sd uI uP uS x hx
    rw [driftM_getCol_prev, drift_from_prev, List.mapIdx_eq_enum_map] at hx
    obtain ⟨⟨i, ev⟩, _, rfl⟩ := List.mem_map.1 hx
    exact abs_nonneg _
  · intro N m sd uI uP uS x hx
    rw [driftS_getCol] at hx
    exact habs N m sd uS x hx
  · intro uI uP uS
    refine ⟨rfl, rfl, ?_⟩
    intro x hx
    rw [driftS_getCol] at hx
    exact habs 10 8 2 uS x hx
  · refine ⟨fun _ => (-(5 * (1 - Real.exp (-(100:ℝ) / (1 * 100 * 0.4)))) - 1) / 0.1,
      fun _ => 0, fun _ => 0, -1, ?_, by norm_num⟩
    rw [driftM_getCol_init]
    have hcol : drift_from_init 1 5
        (fun _ => (-(5 * (1 - Real.exp (-(100:ℝ) / (1 * 100 * 0.4)))) - 1) / 0.1)
        = [(-1 : ℝ)] := by
      rw [drift_from_init, show drift_epochs 1 = [100] from by decide, mapIdx_one]
      norm_num
      field_simp
      ring
    rw [hcol]
    exact List.mem_singleton_self (-1)

/-- C3 witness: the single sgd drift entry at num_points 1, mean 8, std 2
and zero noise is non-negative. -/
theorem claim_drift_nonneg_witness : 0 ≤ |(8 : ℝ) * 0.8 + 2 * 0| :=
  claim_drift_nonneg.2.1 1 8 2 (fun _ => 0) (fun _ => 0) (fun _ => 0) _
    (by
      rw [driftS_getCol, sgd_final_drifts]
      exact List.mem_singleton_self _)

/-- C6: on an empty input table, plot_maml_learning_curves,
plot_sgd_performance_distribution and plot_gradient_alignment_maml write
zero files and print exactly one diagnostic line (the distribution
renderer's line contains the text Skipping plot); plot_weight_drift_comparison
always writes exactly one file regardless of which input table is empty,
placing a placeholder text annotation for each empty side. -/
theorem claim_empty_input (suffix dir : String) (df dfL dfR : DataFrame)
    (hdf : df.isEmpty = true) :
    (plot_maml_learning_curves df suffix dir).files = [] ∧
    (plot_maml_learning_curves df suffix dir).messages
      = ["MAML dataframe is empty for " ++ suffix ++ ". Skipping plot."] ∧
    (plot_sgd_performance_distribution df suffix dir).files = [] ∧
    (plot_sgd_performance_distribution df suffix dir).messages
      = ["SGD dataframe is empty for " ++ suffix ++ ". Skipping plot."] ∧
    (∃ pre post : String, (plot_sgd_performance_distribution df suffix dir).messages
      = [pre ++ "Skipping plot" ++ post]) ∧
    (plot_gradient_alignment_maml df suffix dir).files = [] ∧
    (plot_gradient_alignment_maml df suffix dir).messages
      = ["MAML dataframe for grad alignment is empty or missing column for " ++ suffix
          ++ ". Skipping plot."] ∧
    (plot_weight_drift_comparison dfL dfR suffix dir).files.length = 1 ∧
    (dfL.isEmpty = true →
      "MAML drift data missing or incomplete" ∈ (plot_weight_drift_comparison dfL dfR
        suffix dir).texts) ∧
    (dfR.isEmpty = true →
      "SGD drift data missing or incomplete" ∈ (plot_weight_drift_comparison dfL dfR
        suffix dir).texts) := by
  refine ⟨?_, ?_, ?_, ?_, ?_, ?_, ?_, rfl, ?_, ?_⟩
  · simp [plot_maml_learning_curves, hdf]
  · simp [plot_maml_learning_curves, hdf]
  · simp [plot_sgd_performance_distribution, hdf]
  · simp [plot_sgd_performance_distribution, hdf]
  · refine ⟨"SGD dataframe is empty for " ++ suffix ++ ". ", ".", ?_⟩
    have key : ∀ s : String, s ++ ". Skipping plot." = s ++ ". " ++ "Skipping plot" ++ "." := by
      intro s
      rw [String.append_assoc, String.append_assoc]
      exact congrArg (fun t => s ++ t) (by decide)
    simp only [plot_sgd_performance_distribution, hdf, if_true]
    rw [key]
  · simp [plot_gradient_alignment_maml, hdf]
  · simp [plot_gradient_alignment_maml, hdf]
  · intro hL
    have h1 : (!dfL.isEmpty && dfL.hasCol "l2_drift_from_init") = false := by
      rw [hL]
      rfl
    simp [plot_weight_drift_comparison, h1]
  · intro hR
    have h1 : (!dfR.isEmpty && dfR.hasCol "final_l2_drift_from_init") = false := by
      rw [hR]
      rfl
    simp [plot_weight_drift_comparison, h1]

/-- C6 witness: the behavior at the fully empty frame, empty suffix and the
default figures directory. -/
theorem claim_empty_input_witness :
    (DataFrame.isEmpty ⟨[]⟩ = true) ∧
    ((plot_maml_learning_curves ⟨[]⟩ "" "figures").files = [] ∧
    (plot_maml_learning_curves ⟨[]⟩ "" "figures").messages
      = ["MAML dataframe is empty for " ++ "" ++ ". Skipping plot."] ∧
    (plot_sgd_performance_distribution ⟨[]⟩ "" "figures").files = [] ∧
    (plot_sgd_performance_distribution ⟨[]⟩ "" "figures").messages
      = ["SGD dataframe is empty for " ++ "" ++ ". Skipping plot."] ∧
    (∃ pre post : String, (plot_sgd_performance_distribution ⟨[]⟩ "" "figures").messages
      = [pre ++ "Skipping plot" ++ post]) ∧
    (plot_gradient_alignment_maml ⟨[]⟩ "" "figures").files = [] ∧
    (plot_gradient_alignment_maml ⟨[]⟩ "" "figures").messages
      = ["MAML dataframe for grad alignment is empty or missing column for " ++ ""
          ++ ". Skipping plot."] ∧
    (plot_weight_drift_comparison ⟨[]⟩ ⟨[]⟩ "" "figures").files.length = 1 ∧
    (DataFrame.isEmpty ⟨[]⟩ = true →
      "MAML drift data missing or incomplete" ∈ (plot_weight_drift_comparison ⟨[]⟩ ⟨[]⟩
        "" "figures").texts) ∧
    (DataFrame.isEmpty ⟨[]⟩ = true →
      "SGD drift data missing or incomplete" ∈ (plot_weight_drift_comparison ⟨[]⟩ ⟨[]⟩
        "" "figures").texts)) :=
  ⟨rfl, claim_empty_input "" "figures" ⟨[]⟩ ⟨[]⟩ ⟨[]⟩ rfl⟩

/-- C7: whenever a renderer writes a file, its name is the renderer's fixed
base name followed by the title suffix with every space replaced by an
underscore, plus the .png extension, under the given output directory; the
suffix " (Concept: Simple)" renders to the expected file name. -/
theorem claim_file_naming (df dfL dfR : DataFrame) (suffix dir : String)
    (h1 : df.isEmpty = false) (h2 : df.hasCol "grad_alignment" = true) :
    (plot_maml_learning_curves df suffix dir).files
      = [pathJoin dir ("maml_learning_curves" ++ replaceSpaces suffix ++ ".png")] ∧
    (plot_sgd_performance_distribution df suffix dir).files
      = [pathJoin dir ("sgd_performance_distribution" ++ replaceSpaces suffix ++ ".png")] ∧
    (plot_gradient_alignment_maml df suffix dir).files
      = [pathJoin dir ("maml_gradient_alignment" ++ replaceSpaces suffix ++ ".png")] ∧
    (plot_weight_drift_comparison dfL dfR suffix dir).files
      = [pathJoin dir ("weight_drift_comparison" ++ replaceSpaces suffix ++ ".png")] ∧
    replaceSpaces " (Concept: Simple)" = "_(Concept:_Simple)" ∧
    "maml_learning_curves" ++ replaceSpaces " (Concept: Simple)" ++ ".png"
      = "maml_learning_curves_(Concept:_Simple).png" := by
  refine ⟨?_, ?_, ?_, rfl, by decide, by decide⟩
  · simp [plot_maml_learning_curves, h1]
  · simp [plot_sgd_performance_distribution, h1]
  · simp [plot_gradient_alignment_maml, h1, h2]

/-- C7 witness: the file names at a one-row frame holding a grad_alignment
column, with the suffix " (Concept: Simple)" and directory figures. -/
theorem claim_file_naming_witness :
    (DataFrame.isEmpty ⟨[("grad_alignment", [0])]⟩ = false) ∧
    (DataFrame.hasCol ⟨[("grad_alignment", [0])]⟩ "grad_alignment" = true) ∧
    ((plot_maml_learning_curves ⟨[("grad_alignment", [0])]⟩ " (Concept: Simple)"
        "figures").files
      = [pathJoin "figures" ("maml_learning_curves" ++ replaceSpaces " (Concept: Simple)"
          ++ ".png")] ∧
    (plot_sgd_performance_distribution ⟨[("grad_alignment", [0])]⟩ " (Concept: Simple)"
        "figures").files
      = [pathJoin "figures" ("sgd_performance_distribution" ++ replaceSpaces
          " (Concept: Simple)" ++ ".png")] ∧
    (plot_gradient_alignment_maml ⟨[("grad_alignment", [0])]⟩ " (Concept: Simple)"
        "figures").files
      = [pathJoin "figures" ("maml_gradient_alignment" ++ replaceSpaces " (Concept: Simple)"
          ++ ".png")] ∧
    (plot_weight_drift_comparison ⟨[("grad_alignment", [0])]⟩ ⟨[("grad_alignment", [0])]⟩
        " (Concept: Simple)" "figures").files
      = [pathJoin "figures" ("weight_drift_comparison" ++ replaceSpaces " (Concept: Simple)"
          ++ ".png")] ∧
    replaceSpaces " (Concept: Simple)" = "_(Concept:_Simple)" ∧
    "maml_learning_curves" ++ replaceSpaces " (Concept: Simple)" ++ ".png"
      = "maml_learning_curves_(Concept:_Simple).png") :=
  ⟨rfl, rfl,
    claim_file_naming ⟨[("grad_alignment", [0])]⟩ ⟨[("grad_alignment", [0])]⟩
      ⟨[("grad_alignment", [0])]⟩ " (Concept: Simple)" "figures" rfl rfl⟩

/-- C8: missing optional columns are handled per plot without failing: in
plot_maml_learning_curves the gradient-alignment panel is drawn if and only
if the grad_alignment column is present, and the file is written either
way; in plot_gradient_alignment_maml a missing grad_alignment column causes
a skip with one diagnostic line and no file; in plot_weight_drift_comparison
a missing l2_drift_from_init or final_l2_drift_from_init column replaces
the corresponding panel by a placeholder annotation, and the file is still
written. -/
theorem claim_missing_columns (df dfM dfS : DataFrame) (suffix dir : String)
    (h : df.isEmpty = false) :
    ("grad_alignment" ∈ (plot_maml_learning_curves df suffix dir).panels
      ↔ df.hasCol "grad_alignment" = true) ∧
    (plot_maml_learning_curves df suffix dir).files.length = 1 ∧
    (df.hasCol "grad_alignment" = false →
      (plot_gradient_alignment_maml df suffix dir).files = [] ∧
      (plot_gradient_alignment_maml df suffix dir).messages.length = 1) ∧
    (dfM.isEmpty = false → dfM.hasCol "l2_drift_from_init" = false →
      "MAML drift data missing or incomplete"
          ∈ (plot_weight_drift_comparison dfM dfS suffix dir).texts ∧
      "l2_drift_from_init" ∉ (plot_weight_drift_comparison dfM dfS suffix dir).panels) ∧
    (dfS.isEmpty = false → dfS.hasCol "final_l2_drift_from_init" = false →
      "SGD drift data missing or incomplete"
          ∈ (plot_weight_drift_comparison dfM dfS suffix dir).texts ∧
      "final_l2_drift_from_init" ∉ (plot_weight_drift_comparison dfM dfS suffix dir).panels) ∧
    (plot_weight_drift_comparison dfM dfS suffix dir).files.length = 1 := by
  refine ⟨?_, ?_, ?_, ?_, ?_, rfl⟩
  · cases hg : df.hasCol "grad_alignment" <;>
      simp [plot_maml_learning_curves, h, hg, String.reduceEq]
  · simp [plot_maml_learning_curves, h]
  · intro hg
    constructor <;> simp [plot_gradient_alignment_maml, h, hg]
  · intro hM hcol
    have h1 : (!dfM.isEmpty && dfM.hasCol "l2_drift_from_init") = false := by
      rw [hM, hcol]
      rfl
    cases hS : (!dfS.isEmpty && dfS.hasCol "final_l2_drift_from_init") <;>
      simp [plot_weight_drift_comparison, h1, hS, String.reduceEq]
  · intro hSe hcol
    have h1 : (!dfS.isEmpty && dfS.hasCol "final_l2_drift_from_init") = false := by
      rw [hSe, hcol]
      rfl
    cases hM : (!dfM.isEmpty && dfM.hasCol "l2_drift_from_init") <;>
      cases hMp : dfM.hasCol "l2_drift_from_previous" <;>
      simp [plot_weight_drift_comparison, h1, hM, hMp, String.reduceEq]

/-- C8 witness: the behavior at a one-row frame with only a val_loss
column (so grad_alignment and the drift columns are missing). -/
theorem claim_missing_columns_witness :
    (DataFrame.isEmpty ⟨[("val_loss", [0])]⟩ = false) ∧
    (("grad_alignment" ∈ (plot_maml_learning_curves ⟨[("val_loss", [0])]⟩ "" "figures").panels
      ↔ DataFrame.hasCol ⟨[("val_loss", [0])]⟩ "grad_alignment" = true) ∧
    (plot_maml_learning_curves ⟨[("val_loss", [0])]⟩ "" "figures").files.length = 1 ∧
    (DataFrame.hasCol ⟨[("val_loss", [0])]⟩ "grad_alignment" = false →
      (plot_gradient_alignment_maml ⟨[("val_loss", [0])]⟩ "" "figures").files = [] ∧
      (plot_gradient_alignment_maml ⟨[("val_loss", [0])]⟩ "" "figures").messages.length = 1) ∧
    (DataFrame.isEmpty ⟨[("val_loss", [0])]⟩ = false →
      DataFrame.hasCol ⟨[("val_loss", [0])]⟩ "l2_drift_from_init" = false →
      "MAML drift data missing or incomplete"
          ∈ (plot_weight_drift_comparison ⟨[("val_loss", [0])]⟩ ⟨[("val_loss", [0])]⟩
            "" "figures").texts ∧
      "l2_drift_from_init" ∉ (plot_weight_drift_comparison ⟨[("val_loss", [0])]⟩
        ⟨[("val_loss", [0])]⟩ "" "figures").panels) ∧
    (DataFrame.isEmpty ⟨[("val_loss", [0])]⟩ = false →
      DataFrame.hasCol ⟨[("val_loss", [0])]⟩ "final_l2_drift_from_init" = false →
      "SGD drift data missing or incomplete"
          ∈ (plot_weight_drift_comparison ⟨[("val_loss", [0])]⟩ ⟨[("val_loss", [0])]⟩
            "" "figures").texts ∧
      "final_l2_drift_from_init" ∉ (plot_weight_drift_comparison ⟨[("val_loss", [0])]⟩
        ⟨[("val_loss", [0])]⟩ "" "figures").panels) ∧
    (plot_weight_drift_comparison ⟨[("val_loss", [0])]⟩ ⟨[("val_loss", [0])]⟩
      "" "figures").files.length = 1) :=
  ⟨rfl, claim_missing_columns ⟨[("val_loss", [0])]⟩ ⟨[("val_loss", [0])]⟩
    ⟨[("val_loss", [0])]⟩ "" "figures" rfl⟩

/-- C9 counterexample: the val_accuracy column is not the claimed
trend-plus-noise value: at epochs = 10, log_interval = 10 and a noise
realization of constant 100, the produced entry is the clipped value 1
while the trend-plus-noise form exceeds 1. -/
theorem claim_trend_form_counterexample :
    (generate_dummy_maml_trajectory 10 10 (fun _ => 0) (fun _ => 100) (fun _ => 0)).getCol
        "val_accuracy"
      ≠ [specTrend 0.5 0.9 0.4 ((10:ℕ):ℝ) ((10:ℕ):ℝ) + 0.02 * 100] := by
  have hL : (generate_dummy_maml_trajectory 10 10 (fun _ => 0) (fun _ => 100)
      (fun _ => 0)).getCol "val_accuracy" = [(1 : ℝ)] := by
    rw [maml_getCol_val_accuracy, maml_val_accuracy_raw,
      show steps 10 10 = [10] from by decide, mapIdx_one]
    simp only [List.map]
    rw [clip01_eq_one _ (by nlinarith [Real.exp_pos (-((10:ℕ):ℝ) / (((10:ℕ):ℝ) * 0.4)),
      Real.exp_le_one_iff.mpr (by norm_num : -((10:ℕ):ℝ) / (((10:ℕ):ℝ) * 0.4) ≤ 0)])]
  rw [hL]
  intro hcontra
  have h1 : (1 : ℝ) = specTrend 0.5 0.9 0.4 ((10:ℕ):ℝ) ((10:ℕ):ℝ) + 0.02 * 100 := by
    simpa using hcontra
  rw [specTrend] at h1
  nlinarith [Real.exp_pos (-((10:ℕ):ℝ) / (((10:ℕ):ℝ) * 0.4)),
    Real.exp_le_one_iff.mpr (by norm_num : -((10:ℕ):ℝ) / (((10:ℕ):ℝ) * 0.4) ≤ 0)]

/-- C9 amended: val_loss, grad_alignment and query_loss equal the
saturating-exponential trend plus their per-metric scaled noise exactly;
val_accuracy and query_accuracy equal the clip to the unit interval of such
a trend-plus-noise value (the clip is applied after the noise); and
final_support_loss is not trend shaped: it is the raw uniform draw scaled
by 0.1 (a degenerate zero trend). -/
theorem claim_trend_form_amended (e li N : ℕ) (uL uA uG uQL uQA rFS : ℕ → ℝ) :
    maml_val_loss e li uL
      = (steps e li).mapIdx (fun (i : ℕ) (s : ℕ) =>
          specTrend 0.7 0.4 0.3 (s : ℝ) (e : ℝ) + 0.02 * uL i) ∧
    (generate_dummy_maml_trajectory e li uL uA uG).getCol "val_accuracy"
      = ((steps e li).mapIdx (fun (i : ℕ) (s : ℕ) =>
          specTrend 0.5 0.9 0.4 (s : ℝ) (e : ℝ) + 0.02 * uA i)).map clip01 ∧
    maml_grad_alignment e li uG
      = (steps e li).mapIdx (fun (i : ℕ) (s : ℕ) =>
          specTrend 0.1 0.7 0.5 (s : ℝ) (e : ℝ) + 0.05 * uG i) ∧
    sgd_query_loss N uQL
      = (arange 0 N 1).mapIdx (fun (i : ℕ) (t : ℕ) =>
          specTrend 0.6 0.4 0.5 (t : ℝ) (N : ℝ) + 0.03 * uQL i) ∧
    (generate_dummy_sgd_trajectory N uQL uQA rFS).getCol "query_accuracy"
      = ((arange 0 N 1).mapIdx (fun (i : ℕ) (t : ℕ) =>
          specTrend 0.55 0.85 0.6 (t : ℝ) (N : ℝ) + 0.03 * uQA i)).map clip01 ∧
    (generate_dummy_sgd_trajectory N uQL uQA rFS).getCol "final_support_loss"
      = (List.range N).map (fun i => rFS i * 0.1) := by
  refine ⟨?_, ?_, ?_, ?_, ?_, rfl⟩
  · rw [maml_val_loss,
      show (fun (i : ℕ) (s : ℕ) => 0.7 - 0.3 * (1 - Real.exp (-(s : ℝ) / ((e : ℝ) * 0.3)))
          + (0 + 0.02 * uL i))
        = (fun (i : ℕ) (s : ℕ) => specTrend 0.7 0.4 0.3 (s : ℝ) (e : ℝ) + 0.02 * uL i) from by
        funext i s
        rw [specTrend]
        ring]
  · rw [maml_getCol_val_accuracy, maml_val_accuracy_raw,
      show (fun (i : ℕ) (s : ℕ) => 0.5 + 0.4 * (1 - Real.exp (-(s : ℝ) / ((e : ℝ) * 0.4)))
          + (0 + 0.02 * uA i))
        = (fun (i : ℕ) (s : ℕ) => specTrend 0.5 0.9 0.4 (s : ℝ) (e : ℝ) + 0.02 * uA i) from by
        funext i s
        rw [specTrend]
        ring]
  · rw [maml_grad_alignment,
      show (fun (i : ℕ) (s : ℕ) => 0.1 + 0.6 * (1 - Real.exp (-(s : ℝ) / ((e : ℝ) * 0.5)))
          + (0 + 0.05 * uG i))
        = (fun (i : ℕ) (s : ℕ) => specTrend 0.1 0.7 0.5 (s : ℝ) (e : ℝ) + 0.05 * uG i) from by
        funext i s
        rw [specTrend]
        ring]
  · rw [sgd_query_loss,
      show (fun (i : ℕ) (t : ℕ) => 0.6 - 0.2 * (1 - Real.exp (-(t : ℝ) / ((N : ℝ) * 0.5)))
          + (0 + 0.03 * uQL i))
        = (fun (i : ℕ) (t : ℕ) => specTrend 0.6 0.4 0.5 (t : ℝ) (N : ℝ) + 0.03 * uQL i) from by
        funext i t
        rw [specTrend]
        ring]
  · rw [sgd_getCol_query_accuracy, sgd_query_accuracy_raw,
      show (fun (i : ℕ) (t : ℕ) => 0.55 + 0.3 * (1 - Real.exp (-(t : ℝ) / ((N : ℝ) * 0.6)))
          + (0 + 0.03 * uQA i))
        = (fun (i : ℕ) (t : ℕ) => specTrend 0.55 0.85 0.6 (t : ℝ) (N : ℝ) + 0.03 * uQA i) from by
        funext i t
        rw [specTrend]
        ring]
